import Mathlib

/-!
Shallow embedding of the Assessment Orchestration & Aggregation Pipeline
(NeuroMotion wizard): the tap-interval capture step, the survey capture step,
the spiral capture step with its submit/aggregate flow, the top-level wizard
state machine of `App.jsx`, and the history/statistics view-model of
`ResultsHistory`.  Definitions are transcribed from the React component
sources; theorems settle the frozen behavioural claims.
-/

namespace TapTest

/-- React state of `TapTestStep` (`useState` hooks plus the two refs).
`tapTimestamps` holds the recorded inter-tap intervals, one per tap, as in
the source (the name is kept even though the values are deltas, not
timestamps). -/
structure TapState where
  isActive : Bool
  timeLeft : Nat
  tapCount : Nat
  tapTimestamps : List Int
  loading : Bool
  error : Option String
  showInstructions : Bool
  startTime : Int
  lastTap : Int
deriving DecidableEq, Repr

/-- Initial hook values of `TapTestStep` (refs start unset; modelled as 0,
they are overwritten by `handleStart` before any use). -/
def initTapState : TapState :=
  { isActive := false, timeLeft := 10, tapCount := 0, tapTimestamps := [],
    loading := false, error := none, showInstructions := true,
    startTime := 0, lastTap := 0 }

/-- `handleStart` of `TapTestStep.jsx`: hides instructions, activates the
test, resets count/intervals/timer, and records `Date.now()` in both refs. -/
def handleStart (now : Int) (s : TapState) : TapState :=
  { s with
      showInstructions := false, isActive := true, tapCount := 0,
      tapTimestamps := [], timeLeft := 10, startTime := now, lastTap := now }

/-- `handleTap` of `TapTestStep.jsx`: ignored unless active with time left;
otherwise appends the delta since the previous tap (or since start) and
bumps the tap count. -/
def handleTap (now : Int) (s : TapState) : TapState :=
  if s.isActive = false ∨ s.timeLeft = 0 then s
  else
    { s with
        tapCount := s.tapCount + 1,
        tapTimestamps := s.tapTimestamps ++ [now - s.lastTap],
        lastTap := now }

/-- Observable outcome of `handleTestComplete`: either the local
insufficient-data failure (no network traffic) or a POST of the trimmed
interval list to `/api/v1/analyze/taps`. -/
inductive CompleteOutcome where
  | insufficientData : CompleteOutcome
  | submit (intervals : List Int) : CompleteOutcome
deriving DecidableEq, Repr

/-- `handleTestComplete` of `TapTestStep.jsx`: deactivates the test; if fewer
than 3 raw intervals were recorded it sets the error message and returns
without any network call, otherwise it drops the first interval (warm-up
outlier) and submits the rest. -/
def handleTestComplete (s : TapState) : CompleteOutcome × TapState :=
  let s := { s with isActive := false }
  if s.tapTimestamps.length < 3 then
    (CompleteOutcome.insufficientData,
      { s with error := some "Not enough taps recorded. Please try again with at least 3 taps." })
  else
    (CompleteOutcome.submit (s.tapTimestamps.drop 1),
      { s with loading := true, error := none })

/-- The `setTimeout` callback armed by the error branches of
`handleTestComplete`: after the fixed 3000 ms delay it shows the
instructions again and clears the error. -/
def errorTimeout (s : TapState) : TapState :=
  { s with showInstructions := true, error := none }

/-- Fold a sequence of tap times through `handleTap` (the taps of one run). -/
def runTaps (s : TapState) (times : List Int) : TapState :=
  times.foldl (fun st t => handleTap t st) s

/-- Adjacent deltas of a timestamp list relative to a previous reference
time: `rawIntervals t0 [t1, ..., tn] = [t1 - t0, t2 - t1, ..., tn - t(n-1)]`.
This is the interval list `handleTap` accumulates when the reference is the
start time. -/
def rawIntervals : Int → List Int → List Int
  | _, [] => []
  | prev, t :: ts => (t - prev) :: rawIntervals t ts

theorem rawIntervals_length (t0 : Int) (ts : List Int) :
    (rawIntervals t0 ts).length = ts.length := by
  induction ts generalizing t0 with
  | nil => rfl
  | cons t ts ih => simp [rawIntervals, ih]

/-- While active with time remaining, running taps appends exactly the
adjacent deltas from the last-tap reference, leaves the activity flags
untouched, and moves the reference to the final tap time. -/
theorem runTaps_spec (times : List Int) (s : TapState)
    (hact : s.isActive = true) (ht : s.timeLeft ≠ 0) :
    (runTaps s times).tapTimestamps
        = s.tapTimestamps ++ rawIntervals s.lastTap times
    ∧ (runTaps s times).isActive = true
    ∧ (runTaps s times).timeLeft = s.timeLeft := by
  induction times generalizing s with
  | nil => simp [runTaps, rawIntervals, hact]
  | cons t ts ih =>
    have hstep : handleTap t s =
        { s with
            tapCount := s.tapCount + 1,
            tapTimestamps := s.tapTimestamps ++ [t - s.lastTap],
            lastTap := t } := by
      simp [handleTap, hact, ht]
    have hrun : runTaps s (t :: ts) = runTaps (handleTap t s) ts := rfl
    rw [hrun, hstep]
    have := ih
      { s with
          tapCount := s.tapCount + 1,
          tapTimestamps := s.tapTimestamps ++ [t - s.lastTap],
          lastTap := t }
      (by simp [hact]) (by simpa using ht)
    simpa [rawIntervals, List.append_assoc] using this

end TapTest

namespace TapTest

/-- The intervals accumulated by a run started at `t0` are exactly the
adjacent deltas of the tap times with `t0` as reference. -/
theorem runTaps_start (s0 : TapState) (t0 : Int) (times : List Int) :
    (runTaps (handleStart t0 s0) times).tapTimestamps = rawIntervals t0 times := by
  have h := (runTaps_spec times (handleStart t0 s0) rfl (by simp [handleStart])).1
  simpa [handleStart] using h

theorem handleTestComplete_insufficient_iff (s : TapState) :
    (handleTestComplete s).fst = CompleteOutcome.insufficientData
      ↔ s.tapTimestamps.length < 3 := by
  by_cases h : s.tapTimestamps.length < 3 <;> simp [handleTestComplete, h]

/-- C2: for a run started at time `t0` with taps registered at times
`t1, ..., tn` (the first tap's delta measured from start), the interval list
submitted to the scoring client is `[t2 - t1, t3 - t2, ..., tn - t(n-1)]`,
i.e. the recorded deltas with the first one dropped as warm-up. -/
theorem tap_submitted_intervals (s0 : TapState) (t0 t1 : Int) (ts : List Int)
    (h : 3 ≤ (rawIntervals t0 (t1 :: ts)).length) :
    (handleTestComplete (runTaps (handleStart t0 s0) (t1 :: ts))).fst
      = CompleteOutcome.submit (rawIntervals t1 ts) := by
  have hts := runTaps_start s0 t0 (t1 :: ts)
  have hlen : ¬ (runTaps (handleStart t0 s0) (t1 :: ts)).tapTimestamps.length < 3 := by
    rw [hts]
    omega
  simp only [handleTestComplete, hlen, if_false]
  rw [hts]
  simp [rawIntervals]

/-- Witness for `tap_submitted_intervals` at the spec's worked example:
start at 0, taps at 100, 300, 650, 900 give raw intervals
[100, 200, 350, 250] and submitted list [200, 350, 250]. -/
theorem tap_submitted_intervals_witness :
    3 ≤ (rawIntervals 0 [100, 300, 650, 900]).length
    ∧ (handleTestComplete (runTaps (handleStart 0 initTapState) [100, 300, 650, 900])).fst
        = CompleteOutcome.submit [200, 350, 250] := by
  refine ⟨by decide, ?_⟩
  have h2 := tap_submitted_intervals initTapState 0 100 [300, 650, 900] (by decide)
  rw [h2]
  rfl

/-- C1 counterexample: a run with exactly 3 taps leaves only 2 intervals
after the warm-up drop, yet `handleTestComplete` submits them instead of
failing with the insufficient-data error — the length guard in the source
runs on the raw list, before the drop. -/
theorem tap_insufficient_counterexample :
    ((runTaps (handleStart 0 initTapState) [100, 300, 600]).tapTimestamps.drop 1).length < 3
    ∧ (handleTestComplete (runTaps (handleStart 0 initTapState) [100, 300, 600])).fst
        = CompleteOutcome.submit [200, 300] := by
  exact ⟨by decide, by decide⟩

/-- C1 amended: a capture run fails with the insufficient-data error exactly
when fewer than 3 raw intervals (taps) were recorded — i.e. when fewer than
2 entries remain after the warm-up drop; in that case nothing is submitted
over the network and, after the fixed delay, the step shows the
instructions again with the error cleared. -/
theorem tap_insufficient_iff (s0 : TapState) (t0 : Int) (times : List Int) :
    ((handleTestComplete (runTaps (handleStart t0 s0) times)).fst
        = CompleteOutcome.insufficientData ↔ times.length < 3)
    ∧ (times.length < 3 →
        (∀ l, (handleTestComplete (runTaps (handleStart t0 s0) times)).fst
            ≠ CompleteOutcome.submit l)
        ∧ (errorTimeout
            (handleTestComplete (runTaps (handleStart t0 s0) times)).snd).showInstructions
            = true
        ∧ (errorTimeout
            (handleTestComplete (runTaps (handleStart t0 s0) times)).snd).error = none) := by
  have hts := runTaps_start s0 t0 times
  have hlen : (runTaps (handleStart t0 s0) times).tapTimestamps.length = times.length := by
    rw [hts, rawIntervals_length]
  constructor
  · rw [handleTestComplete_insufficient_iff, hlen]
  · intro h
    have h3 : (runTaps (handleStart t0 s0) times).tapTimestamps.length < 3 := by omega
    refine ⟨fun l => ?_, ?_, ?_⟩ <;>
      simp [handleTestComplete, h3, errorTimeout]

/-- Witness for `tap_insufficient_iff` at a 2-tap run. -/
theorem tap_insufficient_iff_witness :
    (handleTestComplete (runTaps (handleStart 0 initTapState) [100, 300])).fst
      = CompleteOutcome.insufficientData
    ∧ (errorTimeout
        (handleTestComplete (runTaps (handleStart 0 initTapState) [100, 300])).snd).error
        = none :=
  ⟨(tap_insufficient_iff initTapState 0 [100, 300]).1.mpr (by decide),
   ((tap_insufficient_iff initTapState 0 [100, 300]).2 (by decide)).2.2⟩

end TapTest

namespace App

/-- The `currentStep` values of `App.jsx` (the wizard state machine).
`loading` is the aggregating state entered when the spiral result arrives. -/
inductive Step where
  | landing
  | survey
  | taps
  | spiral
  | loading
  | results
  | history
deriving DecidableEq, Repr

/-- Sub-score payload of a single instrument submission
(`response.data` of the three analyze endpoints); the orchestration layer
only reads its `score` field. -/
structure SubResult where
  score : Int
deriving DecidableEq, Repr

/-- Final aggregated session (`response.data` of `/api/v1/aggregate`). -/
structure AggregateResult where
  session_id : Nat
  timestamp : Nat
  survey_score : Int
  tap_score : Int
  spiral_score : Int
  overall_risk : Int
  risk_level : String
  recommendation : String
deriving DecidableEq, Repr

/-- React state of `App`: the current step plus the `testResults` object
with its four accumulated slots. -/
structure AppState where
  currentStep : Step
  survey : Option SubResult
  taps : Option SubResult
  spiral : Option SubResult
  final : Option AggregateResult
deriving DecidableEq, Repr

/-- Initial `useState` values of `App`. -/
def initAppState : AppState :=
  { currentStep := Step.landing, survey := none, taps := none,
    spiral := none, final := none }

/-- `handleStartAssessment`: only moves to the survey step. -/
def handleStartAssessment (s : AppState) : AppState :=
  { s with currentStep := Step.survey }

/-- `handleSurveyComplete`: stores the survey sub-result and advances. -/
def handleSurveyComplete (r : SubResult) (s : AppState) : AppState :=
  { s with survey := some r, currentStep := Step.taps }

/-- `handleTapsComplete`: stores the tap sub-result and advances. -/
def handleTapsComplete (r : SubResult) (s : AppState) : AppState :=
  { s with taps := some r, currentStep := Step.spiral }

/-- `handleSpiralComplete`: stores the spiral sub-result and enters the
aggregating (`loading`) state. -/
def handleSpiralComplete (r : SubResult) (s : AppState) : AppState :=
  { s with spiral := some r, currentStep := Step.loading }

/-- `handleFinalResults`: stores the aggregate session and shows results. -/
def handleFinalResults (r : AggregateResult) (s : AppState) : AppState :=
  { s with final := some r, currentStep := Step.results }

/-- `handleRestart`: back to landing with all four result slots cleared. -/
def handleRestart (_s : AppState) : AppState :=
  { currentStep := Step.landing, survey := none, taps := none,
    spiral := none, final := none }

/-- `goToHistory`: switch to the history page (results untouched). -/
def goToHistory (s : AppState) : AppState :=
  { s with currentStep := Step.history }

/-- `goHome` (navbar Home button): back to landing, results untouched. -/
def goHome (s : AppState) : AppState :=
  { s with currentStep := Step.landing }

/-- The public operations of `App` (state-changing callbacks). -/
inductive Op where
  | start
  | surveyComplete (r : SubResult)
  | tapsComplete (r : SubResult)
  | spiralComplete (r : SubResult)
  | finalResults (r : AggregateResult)
  | restart
  | toHistory
  | home
deriving DecidableEq, Repr

/-- Which operations the UI rendered at a given step exposes: `renderStep`
mounts `LandingPage` (Start) at `landing` and — through the default switch
branch — at `loading`; each wizard step mounts only its own completion
callback; the aggregate continuation resolves while the app sits at
`loading`; `FinalDashboard` (step `results`) exposes Restart; the navbar,
visible on every page except `landing`, exposes Home and History, and the
landing page has its own View History button. -/
def enabled (op : Op) (step : Step) : Bool :=
  match op, step with
  | Op.start, Step.landing => true
  | Op.start, Step.loading => true
  | Op.surveyComplete _, Step.survey => true
  | Op.tapsComplete _, Step.taps => true
  | Op.spiralComplete _, Step.spiral => true
  | Op.finalResults _, Step.loading => true
  | Op.restart, Step.results => true
  | Op.toHistory, _ => true
  | Op.home, Step.landing => false
  | Op.home, _ => true
  | _, _ => false

/-- Dispatch an operation to its handler. -/
def applyOp : Op → AppState → AppState
  | Op.start, s => handleStartAssessment s
  | Op.surveyComplete r, s => handleSurveyComplete r s
  | Op.tapsComplete r, s => handleTapsComplete r s
  | Op.spiralComplete r, s => handleSpiralComplete r s
  | Op.finalResults r, s => handleFinalResults r s
  | Op.restart, s => handleRestart s
  | Op.toHistory, s => goToHistory s
  | Op.home, s => goHome s

/-- Position of each step along the forward pipeline
Landing → Survey → TapTest → Spiral → Aggregating → Results, with the
orthogonal History placed last. -/
def stepIdx : Step → Nat
  | Step.landing => 0
  | Step.survey => 1
  | Step.taps => 2
  | Step.spiral => 3
  | Step.loading => 4
  | Step.results => 5
  | Step.history => 6

/-- C4 counterexample: from the reachable state obtained by Start followed
by a survey completion (current step TapTest), the navbar Home operation is
enabled, moves strictly backward to Landing, is not Restart, and leaves the
stored survey sub-score in place — so Restart is not the only backward
operation. -/
theorem wizard_backward_counterexample :
    (applyOp (Op.surveyComplete ⟨40⟩) (applyOp Op.start initAppState)).currentStep = Step.taps
    ∧ enabled Op.home Step.taps = true
    ∧ stepIdx (applyOp Op.home
          (applyOp (Op.surveyComplete ⟨40⟩) (applyOp Op.start initAppState))).currentStep
        < stepIdx (applyOp (Op.surveyComplete ⟨40⟩) (applyOp Op.start initAppState)).currentStep
    ∧ Op.home ≠ Op.restart
    ∧ (applyOp Op.home
          (applyOp (Op.surveyComplete ⟨40⟩) (applyOp Op.start initAppState))).survey
        = some ⟨40⟩ := by
  refine ⟨rfl, rfl, by decide, by decide, rfl⟩

/-- C4 amended: every enabled operation that moves backward along the
pipeline order is Restart, the navbar Home, or Start clicked while the app
is aggregating (the default switch branch renders the landing page there);
Restart always returns to Landing with all four result slots cleared; and
every other enabled operation — the pipeline handlers and Start from
Landing — moves strictly forward (History, placed after Results, included). -/
theorem wizard_transitions (s : AppState) (op : Op)
    (h : enabled op s.currentStep = true) :
    (stepIdx (applyOp op s).currentStep < stepIdx s.currentStep →
        op = Op.restart ∨ op = Op.home
          ∨ (op = Op.start ∧ s.currentStep = Step.loading))
    ∧ applyOp Op.restart s =
        { currentStep := Step.landing, survey := none, taps := none,
          spiral := none, final := none }
    ∧ ((op ≠ Op.restart ∧ op ≠ Op.home ∧ op ≠ Op.toHistory
          ∧ (op = Op.start → s.currentStep = Step.landing)) →
        stepIdx s.currentStep < stepIdx (applyOp op s).currentStep) := by
  refine ⟨?_, rfl, ?_⟩ <;>
    cases op <;> cases hs : s.currentStep <;>
      simp_all [enabled, applyOp, handleStartAssessment, handleSurveyComplete,
        handleTapsComplete, handleSpiralComplete, handleFinalResults,
        handleRestart, goToHistory, goHome, stepIdx]

/-- Witness for `wizard_transitions`: Start from the initial landing state. -/
theorem wizard_transitions_witness :
    enabled Op.start Step.landing = true
    ∧ applyOp Op.restart initAppState =
        { currentStep := Step.landing, survey := none, taps := none,
          spiral := none, final := none }
    ∧ stepIdx initAppState.currentStep
        < stepIdx (applyOp Op.start initAppState).currentStep := by
  have h := wizard_transitions initAppState Op.start (by decide)
  exact ⟨by decide, h.2.1, h.2.2 ⟨by decide, by decide, by decide, fun _ => rfl⟩⟩

/-- C10: entering the wizard through Start never clears any of the four
accumulated result slots (only Restart does): Start preserves all four
slots; among all enabled operations only Restart can turn a filled slot
back into an empty one; and a survey sub-score surviving a mid-wizard
return to Landing is still present after the next Start. -/
theorem start_preserves_results (s : AppState) (r : SubResult) (op : Op)
    (h : enabled op s.currentStep = true) :
    (handleStartAssessment s).survey = s.survey
    ∧ (handleStartAssessment s).taps = s.taps
    ∧ (handleStartAssessment s).spiral = s.spiral
    ∧ (handleStartAssessment s).final = s.final
    ∧ (handleStartAssessment s).currentStep = Step.survey
    ∧ (s.survey = some r → (applyOp op s).survey = none → op = Op.restart)
    ∧ (s.survey = some r →
        (handleStartAssessment (goHome s)).survey = some r) := by
  refine ⟨rfl, rfl, rfl, rfl, rfl, ?_, ?_⟩
  · intro hr hnone
    cases op <;> simp_all [applyOp, handleStartAssessment, handleSurveyComplete,
      handleTapsComplete, handleSpiralComplete, handleFinalResults,
      handleRestart, goToHistory, goHome]
  · intro hr
    simpa [handleStartAssessment, goHome] using hr

/-- Witness for `start_preserves_results`: a mid-wizard state at the spiral
step with survey and tap sub-scores stored, exercised with the Home
operation. -/
theorem start_preserves_results_witness :
    enabled Op.home Step.spiral = true
    ∧ (handleStartAssessment
        (goHome { currentStep := Step.spiral, survey := some ⟨40⟩,
                  taps := some ⟨41⟩, spiral := none, final := none })).survey
        = some ⟨40⟩ := by
  have h := start_preserves_results
    { currentStep := Step.spiral, survey := some ⟨40⟩,
      taps := some ⟨41⟩, spiral := none, final := none }
    ⟨40⟩ Op.home (by decide)
  exact ⟨by decide, h.2.2.2.2.2.2 rfl⟩

end App

namespace Spiral

/-- Outcome of one network exchange with the scoring service. -/
inductive NetResult (α : Type) where
  | ok (value : α)
  | err (msg : String)
deriving DecidableEq, Repr

/-- React state of `SpiralCanvasStep` (its `useState` hooks; the rasterized
canvas itself is an opaque payload with no orchestration-relevant content
beyond the `hasDrawn` flag). -/
structure SpiralState where
  isDrawing : Bool
  hasDrawn : Bool
  loading : Bool
  error : Option String
deriving DecidableEq, Repr

/-- Initial hook values of `SpiralCanvasStep`. -/
def initSpiralState : SpiralState :=
  { isDrawing := false, hasDrawn := false, loading := false, error := none }

/-- Canvas interactions before submission: `startDrawing` (mouse down),
`draw` (mouse move), `stopDrawing` (mouse up/leave), `clear`. -/
inductive CanvasOp where
  | startDrawing
  | draw
  | stopDrawing
  | clear
deriving DecidableEq, Repr

/-- State effect of each canvas interaction in the source: `startDrawing`
sets both flags, `draw` only paints, `stopDrawing` ends the stroke,
`handleClear` redraws the guide and resets `hasDrawn`. -/
def applyCanvasOp (s : SpiralState) : CanvasOp → SpiralState
  | CanvasOp.startDrawing => { s with isDrawing := true, hasDrawn := true }
  | CanvasOp.draw => s
  | CanvasOp.stopDrawing => { s with isDrawing := false }
  | CanvasOp.clear => { s with hasDrawn := false }

/-- Run a drawing session from the initial state. -/
def runCanvas (ops : List CanvasOp) : SpiralState :=
  ops.foldl applyCanvasOp initSpiralState

/-- Spec-side reading of "a stroke has been drawn since the last `clear()`
or since the initial state": some `startDrawing` occurs after the last
`clear` of the session. -/
def strokeSinceClear (ops : List CanvasOp) : Bool :=
  (ops.reverse.takeWhile (fun op => op != CanvasOp.clear)).contains
    CanvasOp.startDrawing

theorem hasDrawn_eq_strokeSinceClear (ops : List CanvasOp) :
    (runCanvas ops).hasDrawn = strokeSinceClear ops := by
  induction ops using List.reverseRecOn with
  | nil => rfl
  | append_singleton ops op ih =>
    cases op <;>
      simp_all [runCanvas, strokeSinceClear, List.foldl_append,
        applyCanvasOp, List.takeWhile]

/-- `handleSubmit` of `SpiralCanvasStep.jsx`, with the two network outcomes
passed in and the App-level continuations wired as in the source: the
validation guard, then the spiral upload, then `onComplete`, then the
aggregate call, then `onFinalResults`; each `catch` stores the error and
stops the spinner.  The two counters report how many spiral uploads and
aggregate calls were issued. -/
def handleSubmit (spiralNet : NetResult App.SubResult)
    (aggNet : NetResult App.AggregateResult)
    (sp : SpiralState) (app : App.AppState) :
    SpiralState × App.AppState × Nat × Nat :=
  if sp.hasDrawn = false then
    ({ sp with error := some "Please draw a spiral before submitting" },
      app, 0, 0)
  else
    let sp1 := { sp with loading := true, error := none }
    match spiralNet with
    | NetResult.err m =>
        ({ sp1 with error := some m, loading := false }, app, 1, 0)
    | NetResult.ok r =>
        let app1 := App.handleSpiralComplete r app
        match aggNet with
        | NetResult.err m =>
            ({ sp1 with error := some m, loading := false }, app1, 1, 1)
        | NetResult.ok a => (sp1, App.handleFinalResults a app1, 1, 1)

/-- C8: after any drawing session, submitting fails with the validation
error — with zero network calls — exactly when no stroke was begun since
the last clear (or ever); and when a stroke was drawn since the last clear,
submission proceeds to upload the rasterized canvas (one spiral upload is
issued). -/
theorem spiral_submit_validation (ops : List CanvasOp) (app : App.AppState)
    (spiralNet : NetResult App.SubResult)
    (aggNet : NetResult App.AggregateResult) :
    (strokeSinceClear ops = false →
        handleSubmit spiralNet aggNet (runCanvas ops) app
          = ({ runCanvas ops with
                error := some "Please draw a spiral before submitting" },
              app, 0, 0))
    ∧ (strokeSinceClear ops = true →
        (handleSubmit spiralNet aggNet (runCanvas ops) app).2.2.1 = 1) := by
  have hd := hasDrawn_eq_strokeSinceClear ops
  constructor
  · intro h
    rw [h] at hd
    simp [handleSubmit, hd]
  · intro h
    rw [h] at hd
    cases spiralNet <;> cases aggNet <;> simp [handleSubmit, hd]

/-- Witness for `spiral_submit_validation`: the session
clear–startDrawing–draw–stopDrawing has a stroke since the last clear, and
submitting after it issues exactly one spiral upload; conversely
startDrawing followed by clear submits nothing. -/
theorem spiral_submit_validation_witness :
    ((handleSubmit (NetResult.ok ⟨50⟩) (NetResult.ok
          ⟨1, 0, 10, 20, 50, 30, "Low", "ok"⟩)
        (runCanvas [CanvasOp.clear, CanvasOp.startDrawing, CanvasOp.draw,
          CanvasOp.stopDrawing]) App.initAppState).2.2.1 = 1)
    ∧ (handleSubmit (NetResult.ok ⟨50⟩) (NetResult.ok
          ⟨1, 0, 10, 20, 50, 30, "Low", "ok"⟩)
        (runCanvas [CanvasOp.startDrawing, CanvasOp.clear]) App.initAppState
        = ({ runCanvas [CanvasOp.startDrawing, CanvasOp.clear] with
              error := some "Please draw a spiral before submitting" },
            App.initAppState, 0, 0)) :=
  ⟨(spiral_submit_validation [CanvasOp.clear, CanvasOp.startDrawing,
      CanvasOp.draw, CanvasOp.stopDrawing] App.initAppState _ _).2 (by decide),
   (spiral_submit_validation [CanvasOp.startDrawing, CanvasOp.clear]
      App.initAppState _ _).1 (by decide)⟩

/-- C3: when the spiral upload succeeds and the aggregate call fails, the
app stays in the aggregating (`loading`) state, the survey and tap
sub-scores are untouched, the just-obtained spiral sub-score is stored, no
final result is written, the error is surfaced in the capture component's
state, and exactly one aggregate call was made (no automatic retry). -/
theorem aggregation_failure (sp : SpiralState) (app : App.AppState)
    (r : App.SubResult) (m : String) (h : sp.hasDrawn = true) :
    ((handleSubmit (NetResult.ok r) (NetResult.err m) sp app).2.1).currentStep
        = App.Step.loading
    ∧ ((handleSubmit (NetResult.ok r) (NetResult.err m) sp app).2.1).survey
        = app.survey
    ∧ ((handleSubmit (NetResult.ok r) (NetResult.err m) sp app).2.1).taps
        = app.taps
    ∧ ((handleSubmit (NetResult.ok r) (NetResult.err m) sp app).2.1).spiral
        = some r
    ∧ ((handleSubmit (NetResult.ok r) (NetResult.err m) sp app).2.1).final
        = app.final
    ∧ ((handleSubmit (NetResult.ok r) (NetResult.err m) sp app).1).error
        = some m
    ∧ (handleSubmit (NetResult.ok r) (NetResult.err m) sp app).2.2.2 = 1 := by
  simp [handleSubmit, h, App.handleSpiralComplete]

/-- Witness for `aggregation_failure` at a concrete drawn state with both
earlier sub-scores stored. -/
theorem aggregation_failure_witness :
    ((handleSubmit (NetResult.ok ⟨30⟩) (NetResult.err "aggregate failed")
        { isDrawing := false, hasDrawn := true, loading := false, error := none }
        { currentStep := App.Step.spiral, survey := some ⟨10⟩,
          taps := some ⟨20⟩, spiral := none, final := none }).2.1).currentStep
        = App.Step.loading
    ∧ ((handleSubmit (NetResult.ok ⟨30⟩) (NetResult.err "aggregate failed")
        { isDrawing := false, hasDrawn := true, loading := false, error := none }
        { currentStep := App.Step.spiral, survey := some ⟨10⟩,
          taps := some ⟨20⟩, spiral := none, final := none }).2.1).survey
        = some ⟨10⟩
    ∧ ((handleSubmit (NetResult.ok ⟨30⟩) (NetResult.err "aggregate failed")
        { isDrawing := false, hasDrawn := true, loading := false, error := none }
        { currentStep := App.Step.spiral, survey := some ⟨10⟩,
          taps := some ⟨20⟩, spiral := none, final := none }).2.1).spiral
        = some ⟨30⟩
    ∧ (handleSubmit (NetResult.ok ⟨30⟩) (NetResult.err "aggregate failed")
        { isDrawing := false, hasDrawn := true, loading := false, error := none }
        { currentStep := App.Step.spiral, survey := some ⟨10⟩,
          taps := some ⟨20⟩, spiral := none, final := none }).2.2.2 = 1 := by
  have h := aggregation_failure
    { isDrawing := false, hasDrawn := true, loading := false, error := none }
    { currentStep := App.Step.spiral, survey := some ⟨10⟩,
      taps := some ⟨20⟩, spiral := none, final := none }
    ⟨30⟩ "aggregate failed" rfl
  exact ⟨h.1, h.2.1, h.2.2.2.1, h.2.2.2.2.2.2⟩

end Spiral

namespace Survey

/-- The five fixed question-ids of `SurveyStep.jsx`. -/
def questionIds : List String :=
  ["tremor", "rigidity", "bradykinesia", "balance", "walking"]

/-- The fixed ordinal answer options (Never … Always). -/
def optionValues : List Nat := [0, 1, 2, 3, 4]

/-- The `answers` object: a finite mapping from question-id to the selected
severity, modelled as an association list read through `List.lookup`. -/
abbrev Answers := List (String × Nat)

/-- `handleAnswerChange`: object-spread update, overwriting any earlier
answer for the same question-id. -/
def handleAnswerChange (questionId : String) (value : Nat)
    (answers : Answers) : Answers :=
  (questionId, value) :: answers.filter (fun p => p.1 != questionId)

/-- The `allAnswered` / `isComplete` check: every one of the five fixed
question-ids has a recorded answer. -/
def allAnswered (answers : Answers) : Bool :=
  questionIds.all (fun q => (answers.lookup q).isSome)

/-- Observable outcome of the survey `handleSubmit`: the local validation
failure (no network traffic) or the POST of the answers payload to
`/api/v1/analyze/survey`. -/
inductive SubmitOutcome where
  | validationError (msg : String)
  | submit (answers : Answers)
deriving DecidableEq, Repr

/-- `handleSubmit` of `SurveyStep.jsx`: if some question is unanswered it
sets the error and returns before any network call; otherwise it submits
the answers payload. -/
def handleSubmit (answers : Answers) : SubmitOutcome :=
  if allAnswered answers = false then
    SubmitOutcome.validationError "Please answer all questions"
  else
    SubmitOutcome.submit answers

/-- C7: a mapping with all five fixed ids set (to severities 0–4) always
submits — never the validation error — while a mapping leaving some fixed
id unset always yields the validation error, an outcome that by
construction performs no network request. -/
theorem survey_submit_validation (answers : Answers) :
    ((∀ q ∈ questionIds, ∃ v, v ≤ 4 ∧ answers.lookup q = some v) →
        handleSubmit answers = SubmitOutcome.submit answers)
    ∧ ((∃ q ∈ questionIds, answers.lookup q = none) →
        handleSubmit answers
          = SubmitOutcome.validationError "Please answer all questions") := by
  constructor
  · intro h
    have hall : allAnswered answers = true := by
      rw [allAnswered, List.all_eq_true]
      intro q hq
      obtain ⟨v, -, hv⟩ := h q hq
      simp [hv]
    simp [handleSubmit, hall]
  · rintro ⟨q, hq, hnone⟩
    have hall : allAnswered answers = false := by
      rw [allAnswered]
      rw [List.all_eq_false]
      exact ⟨q, hq, by simp [hnone]⟩
    simp [handleSubmit, hall]

/-- Witness for `survey_submit_validation`: the complete mapping built by
answering each question with severity 2 submits, and the empty mapping is
rejected. -/
theorem survey_submit_validation_witness :
    handleSubmit [("tremor", 2), ("rigidity", 2), ("bradykinesia", 2),
        ("balance", 2), ("walking", 2)]
      = SubmitOutcome.submit [("tremor", 2), ("rigidity", 2),
        ("bradykinesia", 2), ("balance", 2), ("walking", 2)]
    ∧ handleSubmit []
      = SubmitOutcome.validationError "Please answer all questions" :=
  ⟨(survey_submit_validation [("tremor", 2), ("rigidity", 2),
      ("bradykinesia", 2), ("balance", 2), ("walking", 2)]).1 (by decide),
   (survey_submit_validation []).2 ⟨"tremor", by decide, rfl⟩⟩

end Survey

namespace History

/-- A persisted session record as consumed by `ResultsHistory`
(`/api/v1/sessions` response entries). -/
structure Session where
  id : Nat
  timestamp : Nat
  overall_risk : Int
  survey_score : Int
  tap_score : Int
  spiral_score : Int
  risk_level : String
deriving DecidableEq, Repr

/-- The `/api/v1/statistics` response: the summary block plus the
risk-level distribution. -/
structure Statistics where
  total_sessions : Nat
  avg_risk : Int
  min_risk : Int
  max_risk : Int
  risk_distribution : List (String × Nat)
deriving DecidableEq, Repr

/-- `RISK_COLORS` of `ResultsHistory.jsx`. -/
def RISK_COLORS : List (String × String) :=
  [("Low", "#10b981"), ("Low-Moderate", "#84cc16"), ("Moderate", "#f59e0b"),
   ("Moderate-High", "#f97316"), ("High", "#ef4444")]

/-- `getRiskBadgeColor`: keyed lookup with the gray fallback
`RISK_COLORS[riskLevel] || "#6b7280"`. -/
def getRiskBadgeColor (riskLevel : String) : String :=
  match RISK_COLORS.lookup riskLevel with
  | some c => c
  | none => "#6b7280"

/-- The `colors` table of `FinalDashboard`'s `getRiskColor`. -/
def riskColorNames : List (String × String) :=
  [("Low", "green"), ("Low-Moderate", "lime"), ("Moderate", "yellow"),
   ("Moderate-High", "orange"), ("High", "red")]

/-- `getRiskColor` of `FinalDashboard`: `colors[level] || "gray"`. -/
def getRiskColor (level : String) : String :=
  match riskColorNames.lookup level with
  | some c => c
  | none => "gray"

/-- What the history table renders for a session's risk level: the source
unconditionally shows a badge with the raw value and
`getRiskBadgeColor`-chosen background; it has no error path. -/
inductive Rendered where
  | badge (label color : String)
  | errorMsg (msg : String)
deriving DecidableEq, Repr

/-- The risk-level cell of the details table / distribution chart. -/
def renderRiskBadge (riskLevel : String) : Rendered :=
  Rendered.badge riskLevel (getRiskBadgeColor riskLevel)

/-- C5 counterexample: `"Critical"` is not one of the five risk categories,
yet the core renders it as a normal badge with the gray fallback color —
it is silently displayed, not surfaced as an error. -/
theorem risk_level_counterexample :
    ("Critical" ∉ RISK_COLORS.map Prod.fst)
    ∧ renderRiskBadge "Critical" = Rendered.badge "Critical" "#6b7280" :=
  ⟨by decide, rfl⟩

/-- C5 amended: a risk level outside the five fixed categories is silently
rendered as a badge with the fallback gray `#6b7280` (`"gray"` in the final
dashboard's palette); no error is surfaced. -/
theorem risk_level_fallback (l : String) (h : l ∉ RISK_COLORS.map Prod.fst) :
    renderRiskBadge l = Rendered.badge l "#6b7280"
    ∧ getRiskColor l = "gray" := by
  simp only [RISK_COLORS, List.map_cons, List.map_nil, List.mem_cons,
    List.mem_singleton, not_or] at h
  obtain ⟨h1, h2, h3, h4, h5, -⟩ := h
  have b1 : (l == "Low") = false := beq_eq_false_iff_ne.mpr h1
  have b2 : (l == "Low-Moderate") = false := beq_eq_false_iff_ne.mpr h2
  have b3 : (l == "Moderate") = false := beq_eq_false_iff_ne.mpr h3
  have b4 : (l == "Moderate-High") = false := beq_eq_false_iff_ne.mpr h4
  have b5 : (l == "High") = false := beq_eq_false_iff_ne.mpr h5
  constructor
  · simp [renderRiskBadge, getRiskBadgeColor, RISK_COLORS, List.lookup,
      b1, b2, b3, b4, b5]
  · simp [getRiskColor, riskColorNames, List.lookup, b1, b2, b3, b4, b5]

/-- Witness for `risk_level_fallback` at the out-of-contract value
`"Unknown"`. -/
theorem risk_level_fallback_witness :
    ("Unknown" ∉ RISK_COLORS.map Prod.fst)
    ∧ renderRiskBadge "Unknown" = Rendered.badge "Unknown" "#6b7280"
    ∧ getRiskColor "Unknown" = "gray" :=
  ⟨by decide, (risk_level_fallback "Unknown" (by decide)).1,
    (risk_level_fallback "Unknown" (by decide)).2⟩

end History

namespace History

/-- `ResultsHistory` view state touched by `fetchData`. -/
structure HistoryState where
  sessions : List Session
  statistics : Option Statistics
  loading : Bool
  error : Option String
deriving DecidableEq, Repr

/-- Initial hook values of `ResultsHistory` (`loading` starts true). -/
def initHistoryState : HistoryState :=
  { sessions := [], statistics := none, loading := true, error := none }

/-- Asynchronous events of possibly overlapping `fetchData` calls: issuing
the request pair (`setLoading(true)`) and its later resolution or
rejection.  The `id` only names which call an event belongs to for stating
properties; the source carries no such id and applies every arriving result
unconditionally. -/
inductive FetchEvent where
  | issue (id : Nat)
  | resolve (id : Nat) (sessions : List Session) (stats : Statistics)
  | reject (id : Nat)
deriving DecidableEq, Repr

/-- Effect of each event exactly as in `fetchData`: `Promise.all`
resolution stores the session list and statistics and clears the error;
rejection stores the fixed failure message; both clear the spinner. -/
def applyFetchEvent (s : HistoryState) : FetchEvent → HistoryState
  | FetchEvent.issue _ => { s with loading := true }
  | FetchEvent.resolve _ sess stats =>
      { s with sessions := sess, statistics := some stats,
               error := none, loading := false }
  | FetchEvent.reject _ =>
      { s with error := some "Failed to load results history",
               loading := false }

/-- Fold a trace of fetch events through the state. -/
def runFetch (s : HistoryState) (events : List FetchEvent) : HistoryState :=
  events.foldl applyFetchEvent s

/-- C6 counterexample: request 1 is issued, a refresh issues request 2
before it resolves, request 2 resolves first (its sessions are applied),
and then request 1's stale result arrives and is applied over the newer
one — the previous request's result is not discarded. -/
theorem history_stale_overwrite_counterexample :
    (runFetch initHistoryState
        [FetchEvent.issue 1, FetchEvent.issue 2,
         FetchEvent.resolve 2 [⟨2, 200, 90, 4, 5, 6, "High"⟩]
           ⟨2, 50, 10, 90, []⟩,
         FetchEvent.resolve 1 [⟨1, 100, 10, 1, 2, 3, "Low"⟩]
           ⟨1, 10, 10, 10, []⟩]).sessions
      = [⟨1, 100, 10, 1, 2, 3, "Low"⟩]
    ∧ (runFetch initHistoryState
        [FetchEvent.issue 1, FetchEvent.issue 2,
         FetchEvent.resolve 2 [⟨2, 200, 90, 4, 5, 6, "High"⟩]
           ⟨2, 50, 10, 90, []⟩,
         FetchEvent.resolve 1 [⟨1, 100, 10, 1, 2, 3, "Low"⟩]
           ⟨1, 10, 10, 10, []⟩]).sessions
      ≠ [⟨2, 200, 90, 4, 5, 6, "High"⟩] :=
  ⟨rfl, by decide⟩

/-- C6 amended: `fetchData` has no latest-wins guard — every arriving
result is applied unconditionally, so after any trace the exposed sessions
and statistics are those of the last response to resolve, regardless of
the order in which the requests were issued. -/
theorem history_last_resolve_wins (s : HistoryState)
    (events : List FetchEvent) (id : Nat) (sess : List Session)
    (stats : Statistics) :
    (runFetch s (events ++ [FetchEvent.resolve id sess stats])).sessions
        = sess
    ∧ (runFetch s (events ++ [FetchEvent.resolve id sess stats])).statistics
        = some stats := by
  constructor <;> simp [runFetch, List.foldl_append, applyFetchEvent]

end History

namespace History

/-- A chart datum of `trendData` (the locale-formatted `date` label is
presentation and omitted; `Math.round` on the integral embedded scores is
the identity). -/
structure TrendPoint where
  risk : Int
  survey : Int
  tap : Int
  spiral : Int
  timestamp : Nat
deriving DecidableEq, Repr

/-- The per-session mapping inside `trendData`. -/
def toTrendPoint (s : Session) : TrendPoint :=
  { risk := s.overall_risk, survey := s.survey_score, tap := s.tap_score,
    spiral := s.spiral_score, timestamp := s.timestamp }

/-- JavaScript `slice(-n)`: the last `n` elements of a list. -/
def sliceLast (n : Nat) (l : List α) : List α :=
  l.drop (l.length - n)

/-- `trendData` of `ResultsHistory.jsx`:
`sessions.slice().reverse().map(...).slice(-30)`. -/
def trendData (sessions : List Session) : List TrendPoint :=
  sliceLast 30 (sessions.reverse.map toTrendPoint)

/-- The comparison chart's data: `trendData.slice(-10)`. -/
def comparisonData (sessions : List Session) : List TrendPoint :=
  sliceLast 10 (trendData sessions)

theorem sliceLast_reverse (l : List α) (n : Nat) :
    sliceLast n l.reverse = (l.take n).reverse := by
  rw [sliceLast, List.length_reverse, ← List.reverse_take]

/-- C9: for every loaded session list (delivered most-recent-first), the
trend projection is exactly the 30 most recent sessions and the comparison
projection the 10 most recent, both reversed into oldest-first order; hence
each has at most 30 resp. 10 entries and each is a contiguous suffix of the
full oldest-first projection of the loaded list (the comparison slice being
a suffix of the trend series). -/
theorem trend_projections (sessions : List Session) :
    trendData sessions = ((sessions.take 30).map toTrendPoint).reverse
    ∧ comparisonData sessions = ((sessions.take 10).map toTrendPoint).reverse
    ∧ (trendData sessions).length ≤ 30
    ∧ (comparisonData sessions).length ≤ 10
    ∧ trendData sessions <:+ (sessions.map toTrendPoint).reverse
    ∧ comparisonData sessions <:+ trendData sessions := by
  have htrend : trendData sessions = ((sessions.take 30).map toTrendPoint).reverse := by
    rw [trendData, List.map_reverse, sliceLast_reverse, List.map_take]
  have hcomp : comparisonData sessions = ((sessions.take 10).map toTrendPoint).reverse := by
    rw [comparisonData, htrend, sliceLast_reverse, ← List.map_take,
      List.take_take]
    simp
  refine ⟨htrend, hcomp, ?_, ?_, ?_, ?_⟩
  · rw [htrend]
    simp [List.length_take]
  · rw [hcomp]
    simp [List.length_take]
  · rw [htrend, ← List.map_reverse]
    rw [List.map_reverse, List.map_take]
    exact List.reverse_suffix.mpr ⟨(sessions.map toTrendPoint).drop 30,
      List.take_append_drop 30 (sessions.map toTrendPoint)⟩
  · rw [comparisonData, sliceLast]
    exact List.drop_suffix _ _

end History
